import Mathlib

/-!
Verification of the invoice-generation and accounting-reconciliation core of
the VPN-reseller billing dashboard.  The TypeScript source is shallowly
embedded: spreadsheet cell values become an inductive `JSVal`, JavaScript
numbers become exact rationals, and each source function becomes a Lean
definition with the same name and structure.
-/

namespace VpnBilling

/-- Value of one spreadsheet cell as handed to `processRawData` by the XLSX
parser: either a string or a number.  Numbers are modelled as exact
rationals. -/
inductive JSVal where
  | str (s : String)
  | num (q : ℚ)
deriving DecidableEq

/-- JavaScript truthiness of a cell value: the empty string and the number 0
are falsy, everything else is truthy.  Models the `if (!value)` checks of the
importer. -/
def JSVal.truthy : JSVal → Bool
  | .str s => s ≠ ""
  | .num q => q ≠ 0

/-- Models JavaScript `value.toString()` for the two cell shapes. -/
def JSVal.jsString : JSVal → String
  | .str s => s
  | .num q => toString q

/-- Lower-casing of one ASCII character, the part of `toLowerCase` the
importer's column names exercise. -/
def charToLower (c : Char) : Char :=
  if 65 ≤ c.toNat ∧ c.toNat ≤ 90 then Char.ofNat (c.toNat + 32) else c

/-- Models JavaScript `s.toLowerCase()` (ASCII range). -/
def jsToLower (s : String) : String := String.mk (s.data.map charToLower)

/-- Models JavaScript `s.trim()`: strip leading and trailing whitespace. -/
def jsTrim (s : String) : String :=
  String.mk ((((s.data.dropWhile Char.isWhitespace).reverse).dropWhile
    Char.isWhitespace).reverse)

/-- Numeric value of a decimal digit character. -/
def digitVal (c : Char) : ℕ := c.toNat - 48

/-- Longest leading run of decimal-digit characters, with the rest. -/
def spanDigits : List Char → List Char × List Char
  | [] => ([], [])
  | c :: rest =>
    if c.isDigit then
      let (d, r) := spanDigits rest
      (c :: d, r)
    else ([], c :: rest)

/-- Value of a big-endian digit-character run. -/
def digitsToNat (ds : List Char) : ℕ :=
  ds.foldl (fun a c => 10 * a + digitVal c) 0

/-- Value of a fractional digit-character run (the part after the point). -/
def fracToRat (ds : List Char) : ℚ :=
  ds.foldr (fun c a => ((digitVal c : ℚ) + a) / 10) 0

/-- Model of JavaScript `parseFloat` on a character list: leading whitespace
skipped, optional sign, integer digits, optional point and fraction digits;
any trailing garbage is ignored; `none` models `NaN`.  Exponent notation is
not modelled (no input in this development uses it). -/
def parseFloatChars (cs : List Char) : Option ℚ :=
  let cs1 := cs.dropWhile (·.isWhitespace)
  let signed : Bool × List Char :=
    match cs1 with
    | '-' :: rest => (true, rest)
    | '+' :: rest => (false, rest)
    | _ => (false, cs1)
  let ipRest := spanDigits signed.2
  let fp : List Char :=
    match ipRest.2 with
    | '.' :: r2 => (spanDigits r2).1
    | _ => []
  if ipRest.1 = [] ∧ fp = [] then none
  else
    let v : ℚ := (digitsToNat ipRest.1 : ℚ) + fracToRat fp
    some (if signed.1 then -v else v)

/-- Models `parseFloat(value)` on a cell value: a number parses to itself, a
string goes through the string parser. -/
def JSVal.parseFloat : JSVal → Option ℚ
  | .num q => some q
  | .str s => parseFloatChars s.data

/-- Model of JavaScript `Math.round`: round half toward positive infinity. -/
def jsRound (x : ℚ) : ℤ := ⌊x + 1 / 2⌋

/-- Models `Math.round(x * 1000) / 1000`, the 3-decimal rounding used by the
importer and the invoice calculator. -/
def round3 (x : ℚ) : ℚ := (jsRound (x * 1000) : ℚ) / 1000

/-- One imported spreadsheet row: ordered field-name/value pairs. -/
abbrev Row := List (String × JSVal)

/-- Models `row[field] !== undefined`: exact-key lookup. -/
def lookupExact (row : Row) (field : String) : Option JSVal :=
  (row.find? (fun kv => kv.1 = field)).map (·.2)

/-- Models `keys.find(key => key.toLowerCase() === field.toLowerCase())`:
case-insensitive key lookup. -/
def lookupCI (row : Row) (field : String) : Option JSVal :=
  (row.find? (fun kv => jsToLower kv.1 = jsToLower field)).map (·.2)

/-- The importer's `findFieldValue`: for each candidate field name try the
exact key, then the case-insensitive key, and fall through to the next
candidate; `none` models the final `return null`. -/
def findFieldValue (row : Row) : List String → Option JSVal
  | [] => none
  | f :: rest =>
    match lookupExact row f with
    | some v => some v
    | none =>
      match lookupCI row f with
      | some v => some v
      | none => findFieldValue row rest

/-- Candidate column names for the identity field. -/
def identityFields : List String := ["admin_username", "username", "admin", "user"]

/-- Candidate column names for the quantity field. -/
def usageFields : List String := ["data_usage", "usage", "data", "gb", "traffic"]

/-- The importer's unit heuristic: values above 1,000,000 are bytes and are
divided by 2^30, values above 1,000 are megabytes and are divided by 1,024,
anything else is taken as GB already. -/
def convertToGb (v : ℚ) : ℚ :=
  if v > 1000000 then v / (1024 * 1024 * 1024)
  else if v > 1000 then v / 1024
  else v

/-- One accepted usage record produced by the importer. -/
structure ImportedData where
  adminUsername : String
  dataUsageGb : ℚ
  month : String
deriving DecidableEq

/-- Importer diagnostic for a missing/falsy identity field (verbatim). -/
def errIdentityNotFound : String := "نام کاربری مدیر پیدا نشد"

/-- Importer diagnostic for a missing/falsy quantity field (verbatim). -/
def errUsageNotFound : String := "مقدار مصرف داده پیدا نشد"

/-- Importer diagnostic for an unparseable or negative quantity (verbatim). -/
def errUsageInvalid : String := "مقدار مصرف داده نامعتبر است"

/-- Validation and conversion of one raw row, following `processRawData`
lines 158-195: find the identity and quantity cells, reject falsy or missing
values, reject unparseable or negative quantities, otherwise return the
trimmed username together with the unrounded GB value. -/
def processRow (row : Row) : Except String (String × ℚ) :=
  match findFieldValue row identityFields with
  | none => .error errIdentityNotFound
  | some adminUsername =>
    if ¬ adminUsername.truthy then .error errIdentityNotFound
    else
      match findFieldValue row usageFields with
      | none => .error errUsageNotFound
      | some dataUsage =>
        if ¬ dataUsage.truthy then .error errUsageNotFound
        else
          match dataUsage.parseFloat with
          | none => .error errUsageInvalid
          | some v =>
            if v < 0 then .error errUsageInvalid
            else .ok (jsTrim adminUsername.jsString, convertToGb v)

/-- Batch statistics and outputs of the importer. -/
structure ProcessedData where
  totalRecords : ℕ
  validRecords : ℕ
  invalidRecords : ℕ
  uniqueUsers : ℕ
  totalDataUsage : ℚ
  records : List ImportedData
  errors : List String
deriving DecidableEq

/-- One entry of the importer's error log: row number (1-based) plus the
diagnostic, matching the template string of the source. -/
def rowError (index : ℕ) (msg : String) : String :=
  "ردیف " ++ toString (index + 1) ++ ": " ++ msg

/-- The importer's `processRawData`: fold over the rows, accepted rows append
a record rounded to 3 decimals and add their unrounded GB value to the
usage total, rejected rows append an indexed error message.  `month` is the
caller-selected month (the source defaults it to the current `YYYY-MM` before
this point). -/
def processRawData (month : String) (rawData : List Row) : ProcessedData :=
  let step := fun (acc : List ImportedData × List String × ℚ) (ir : ℕ × Row) =>
    match processRow ir.2 with
    | .ok (u, g) => (acc.1 ++ [⟨u, round3 g, month⟩], acc.2.1, acc.2.2 + g)
    | .error m => (acc.1, acc.2.1 ++ [rowError ir.1 m], acc.2.2)
  let res := rawData.enum.foldl step ([], [], 0)
  { totalRecords := rawData.length
    validRecords := res.1.length
    invalidRecords := res.2.1.length
    uniqueUsers := (res.1.map (·.adminUsername)).dedup.length
    totalDataUsage := round3 res.2.2
    records := res.1
    errors := res.2.1 }

/-- A representative (reseller) record, with the fields the verified
components read.  Stored decimal strings are modelled as parsed rationals;
nullable columns as options. -/
structure Representative where
  id : ℕ
  name : String
  username : String
  pricePerGb : ℚ
  discountPercent : Option ℚ
  price1Month : Option ℚ
  price2Month : Option ℚ
  price3Month : Option ℚ
  price4Month : Option ℚ
  price5Month : Option ℚ
  price6Month : Option ℚ
  unlimitedMonthlyPrice : Option ℚ
  telegramId : Option String
  telegramUsername : Option String
deriving DecidableEq

/-- One persisted usage record as served to the invoice generator. -/
structure BillingData where
  adminUsername : String
  dataUsageGb : ℚ
  month : String
deriving DecidableEq

/-- Models `new Map(representatives.map(rep => [rep.username, rep])).get(u)`:
with duplicate usernames the last entry wins. -/
def representativesMapGet (representatives : List Representative) (u : String) :
    Option Representative :=
  representatives.foldl (fun acc r => if r.username = u then some r else acc) none

/-- The distinct usernames of the billing rows in first-appearance order: the
key order of the object built by the `reduce` over `billingData`, as
enumerated by `Object.entries`. -/
def groupKeys (billingData : List BillingData) : List String :=
  billingData.foldl
    (fun ks item => if item.adminUsername ∈ ks then ks else ks ++ [item.adminUsername]) []

/-- Aggregated usage of one username: the sum the `reduce` accumulates for
that key. -/
def groupTotal (billingData : List BillingData) (u : String) : ℚ :=
  billingData.foldl
    (fun s item => if item.adminUsername = u then s + item.dataUsageGb else s) 0

/-- One invoice draft as computed by `processInvoiceData`. -/
structure InvoiceGenerationData where
  representativeId : ℕ
  representativeName : String
  username : String
  dataUsageGb : ℚ
  pricePerGb : ℚ
  discountPercent : ℚ
  totalAmount : ℚ
  finalAmount : ℚ
  month : String
deriving DecidableEq

/-- Lines 136-152 of `processInvoiceData`: legacy pricing applied to one
matched group.  `discountPercent` defaults to 0 via `|| "0"`. -/
def mkDraft (rep : Representative) (totalUsage : ℚ) (month : String) :
    InvoiceGenerationData :=
  let pricePerGb := rep.pricePerGb
  let discountPercent := rep.discountPercent.getD 0
  let totalAmount := totalUsage * pricePerGb
  let discountAmount := totalAmount * discountPercent / 100
  let finalAmount := totalAmount - discountAmount
  { representativeId := rep.id
    representativeName := rep.name
    username := rep.username
    dataUsageGb := round3 totalUsage
    pricePerGb := pricePerGb
    discountPercent := discountPercent
    totalAmount := totalAmount
    finalAmount := finalAmount
    month := month }

/-- The console warning emitted for an unmatched username (verbatim). -/
def unmatchedWarning (u : String) : String :=
  "Representative not found for username: " ++ u

/-- The generator's `processInvoiceData`: group the billing rows by username,
look each group up in the representative map, skip unmatched groups while
recording the console warning, and emit one draft per matched group.
Returns the draft list and the warning log. -/
def processInvoiceData (representatives : List Representative)
    (billingData : List BillingData) (selectedMonth : String) :
    List InvoiceGenerationData × List String :=
  (groupKeys billingData).foldl
    (fun acc u =>
      match representativesMapGet representatives u with
      | none => (acc.1, acc.2 ++ [unmatchedWarning u])
      | some rep =>
        (acc.1 ++ [mkDraft rep (groupTotal billingData u) selectedMonth], acc.2))
    ([], [])

/-- Big-endian decimal digits of a natural number, as characters, with the
JavaScript convention that 0 prints as "0". -/
def natDecimal (n : ℕ) : List Char :=
  if n = 0 then ['0'] else ((Nat.digits 10 n).reverse).map Nat.digitChar

/-- Models `s.slice(-k)` on a character list: the last `k` characters (the
whole list when it is shorter than `k`). -/
def sliceLast (k : ℕ) (cs : List Char) : List Char := cs.drop (cs.length - k)

/-- Models JavaScript `s.replace(t, '')` with a single-character string
pattern: only the first occurrence is removed. -/
def removeFirst (t : Char) : List Char → List Char
  | [] => []
  | c :: rest => if c = t then rest else c :: removeFirst t rest

/-- The utility `generateInvoiceNumber`, with the `Date.now()` call made
explicit as the `nowMs` argument; builds
`INV-` + repId + `-` + month with its first `/` removed + `-` + the last six
characters of the decimal millisecond clock. -/
def generateInvoiceNumber (repId : ℕ) (month : String) (nowMs : ℕ) : String :=
  String.mk (("INV-".data ++ natDecimal repId)
    ++ ('-' :: removeFirst '/' month.data)
    ++ ('-' :: sliceLast 6 (natDecimal nowMs)))

/-- One line item of a generated invoice payload. -/
structure InvoiceItem where
  description : String
  quantity : ℚ
  unitPrice : ℚ
  totalPrice : ℚ
deriving DecidableEq

/-- The invoice payload built by `handleGenerateInvoices` for one draft. -/
structure GeneratedInvoice where
  representativeId : ℕ
  invoiceNumber : String
  month : String
  totalAmount : ℚ
  discountAmount : ℚ
  finalAmount : ℚ
  dueDateMs : ℕ
  status : String
  items : List InvoiceItem
deriving DecidableEq

/-- Lines 197-212 of `handleGenerateInvoices`: turn one draft into the POST
payload; the discount amount is recomputed as `total * percent / 100` and the
due date is 30 days from now. -/
def toGeneratedInvoice (inv : InvoiceGenerationData) (nowMs : ℕ) : GeneratedInvoice :=
  { representativeId := inv.representativeId
    invoiceNumber := generateInvoiceNumber inv.representativeId inv.month nowMs
    month := inv.month
    totalAmount := inv.totalAmount
    discountAmount := inv.totalAmount * inv.discountPercent / 100
    finalAmount := inv.finalAmount
    dueDateMs := nowMs + 30 * 24 * 60 * 60 * 1000
    status := "pending"
    items := [{ description := "مصرف داده VPN - " ++ inv.month
                quantity := inv.dataUsageGb
                unitPrice := inv.pricePerGb
                totalPrice := inv.dataUsageGb * inv.pricePerGb }] }

/-- A persisted invoice as read by the accounting dashboard. -/
structure Invoice where
  representativeId : ℕ
  finalAmount : ℚ
  status : String
  createdAtMs : ℕ
deriving DecidableEq

/-- A recorded payment as read by the accounting dashboard. -/
structure Payment where
  representativeId : ℕ
  amount : ℚ
  paymentDateMs : ℕ
deriving DecidableEq

/-- The three-way financial classification of a representative. -/
inductive RepStatus where
  | creditor
  | debtor
  | balanced
deriving DecidableEq

/-- The derived accounting row of one representative. -/
structure AccountingSummary where
  representative : Representative
  totalInvoices : ℕ
  totalInvoiced : ℚ
  totalPaid : ℚ
  outstanding : ℚ
  status : RepStatus
  lastPaymentMs : Option ℕ
  oldestUnpaidMs : Option ℕ
deriving DecidableEq

/-- Lines 466-503 of the accounting dashboard: filter the representative's
invoices and payments, sum `finalAmount` and `amount`, subtract, and
classify; `lastPayment` is the maximal payment date, `oldestUnpaid` the
minimal creation date among invoices still `pending`. -/
def accountingSummaryFor (invoices : List Invoice) (payments : List Payment)
    (rep : Representative) : AccountingSummary :=
  let repInvoices := invoices.filter (·.representativeId = rep.id)
  let repPayments := payments.filter (·.representativeId = rep.id)
  let totalInvoiced := repInvoices.foldl (fun s inv => s + inv.finalAmount) 0
  let totalPaid := repPayments.foldl (fun s pay => s + pay.amount) 0
  let outstanding := totalInvoiced - totalPaid
  let unpaidInvoices := repInvoices.filter (·.status = "pending")
  { representative := rep
    totalInvoices := repInvoices.length
    totalInvoiced := totalInvoiced
    totalPaid := totalPaid
    outstanding := outstanding
    status :=
      if outstanding > 0 then .debtor
      else if outstanding < 0 then .creditor
      else .balanced
    lastPaymentMs := (repPayments.map (·.paymentDateMs)).max?
    oldestUnpaidMs := (unpaidInvoices.map (·.createdAtMs)).min? }

/-- The dashboard's `accountingSummary`: one derived row per representative. -/
def accountingSummary (representatives : List Representative)
    (invoices : List Invoice) (payments : List Payment) : List AccountingSummary :=
  representatives.map (accountingSummaryFor invoices payments)

/-- Truthiness of a nullable string: null and the empty string are falsy. -/
def optTruthy : Option String → Bool
  | none => false
  | some s => s ≠ ""

/-- Models `a || b` on nullable strings (value semantics). -/
def jsOrString (a b : Option String) : Option String :=
  if optTruthy a then a else b

/-- The utility `createTelegramLink`: `https://t.me/` plus the username with
its first `@` removed (JavaScript `replace('@', '')`). -/
def createTelegramLink (username : String) : String :=
  "https://t.me/" ++ String.mk (removeFirst '@' username.data)

/-- One row of the Telegram manager's contact table. -/
structure TelegramContact where
  representative : Representative
  hasTelegram : Bool
  telegramLink : Option String
  invoiceCount : ℕ
  pendingAmount : ℚ
deriving DecidableEq

/-- Lines 72-88 of the Telegram manager: presence of a channel is the
truthiness of `telegramId || telegramUsername`; the link, built only when
`telegramUsername || telegramId` is truthy, uses the username first and the
id as fallback. -/
def telegramContactFor (invoices : List Invoice) (rep : Representative) :
    TelegramContact :=
  let repInvoices := invoices.filter (·.representativeId = rep.id)
  let pendingInvoices := repInvoices.filter (·.status = "pending")
  let contactValue := jsOrString rep.telegramUsername rep.telegramId
  { representative := rep
    hasTelegram := optTruthy rep.telegramId || optTruthy rep.telegramUsername
    telegramLink :=
      if optTruthy contactValue then some (createTelegramLink (contactValue.getD ""))
      else none
    invoiceCount := repInvoices.length
    pendingAmount := pendingInvoices.foldl (fun s inv => s + inv.finalAmount) 0 }

/-- The manager's `telegramContacts` table. -/
def telegramContacts (representatives : List Representative)
    (invoices : List Invoice) : List TelegramContact :=
  representatives.map (telegramContactFor invoices)

/-- The `no_telegram` partition of the contact table: the representatives
shown in the missing-contact list and counted by `missingContactsCount`. -/
def missingContacts (representatives : List Representative)
    (invoices : List Invoice) : List TelegramContact :=
  (telegramContacts representatives invoices).filter (fun c => ¬ c.hasTelegram)

/-- Spec-side channel rule (§4.5 wording, for comparison with the code): a
channel is present iff the telegram id or the telegram username is non-empty
after trimming. -/
def specHasChannel (rep : Representative) : Bool :=
  (match rep.telegramId with
   | none => false
   | some s => jsTrim s ≠ "") ||
  (match rep.telegramUsername with
   | none => false
   | some s => jsTrim s ≠ "")

/-- Numeric value of a big-endian decimal digit-character list (used to read
the timestamp suffix of an invoice number back as a number). -/
def charsVal (cs : List Char) : ℕ :=
  Nat.ofDigits 10 ((cs.map digitVal).reverse)

section Lemmas

/-- Folding addition of a projected field equals the sum of the projections. -/
theorem foldl_add_eq_sum {α : Type} (f : α → ℚ) (l : List α) :
    l.foldl (fun s x => s + f x) 0 = (l.map f).sum := by
  rw [List.sum_eq_foldl, List.foldl_map]

/-- The three-way classifier reads back the sign of its argument:
characterisation of the `debtor` branch. -/
theorem classify_debtor_iff (o : ℚ) :
    (if o > 0 then RepStatus.debtor else if o < 0 then RepStatus.creditor
      else RepStatus.balanced) = RepStatus.debtor ↔ o > 0 := by
  split_ifs with h1 h2 <;> simp_all

/-- Characterisation of the `creditor` branch. -/
theorem classify_creditor_iff (o : ℚ) :
    (if o > 0 then RepStatus.debtor else if o < 0 then RepStatus.creditor
      else RepStatus.balanced) = RepStatus.creditor ↔ o < 0 := by
  split_ifs with h1 h2 <;> simp_all <;> linarith

/-- Characterisation of the `balanced` branch. -/
theorem classify_balanced_iff (o : ℚ) :
    (if o > 0 then RepStatus.debtor else if o < 0 then RepStatus.creditor
      else RepStatus.balanced) = RepStatus.balanced ↔ o = 0 := by
  split_ifs with h1 h2 <;> simp_all <;> linarith

end Lemmas

/-- C2: for every representative, reconciliation computes `totalInvoiced` as
the sum of `finalAmount` over that representative's invoices, `totalPaid` as
the sum of `amount` over its payments, sets
`outstanding = totalInvoiced - totalPaid`, and classifies the representative
debtor iff outstanding is positive, creditor iff negative, balanced iff
zero. -/
theorem C2_reconciliation (invoices : List Invoice) (payments : List Payment)
    (rep : Representative) :
    (accountingSummaryFor invoices payments rep).totalInvoiced =
      (((invoices.filter (·.representativeId = rep.id)).map (·.finalAmount)).sum) ∧
    (accountingSummaryFor invoices payments rep).totalPaid =
      (((payments.filter (·.representativeId = rep.id)).map (·.amount)).sum) ∧
    (accountingSummaryFor invoices payments rep).outstanding =
      (accountingSummaryFor invoices payments rep).totalInvoiced -
        (accountingSummaryFor invoices payments rep).totalPaid ∧
    ((accountingSummaryFor invoices payments rep).status = RepStatus.debtor ↔
      (accountingSummaryFor invoices payments rep).outstanding > 0) ∧
    ((accountingSummaryFor invoices payments rep).status = RepStatus.creditor ↔
      (accountingSummaryFor invoices payments rep).outstanding < 0) ∧
    ((accountingSummaryFor invoices payments rep).status = RepStatus.balanced ↔
      (accountingSummaryFor invoices payments rep).outstanding = 0) := by
  refine ⟨?_, ?_, ?_, ?_, ?_, ?_⟩
  · simp [accountingSummaryFor, foldl_add_eq_sum]
  · simp [accountingSummaryFor, foldl_add_eq_sum]
  · simp [accountingSummaryFor]
  · exact classify_debtor_iff _
  · exact classify_creditor_iff _
  · exact classify_balanced_iff _

/-- C1: for a representative with legacy per-GB pricing and a discount
percent in [0,100], the calculation over the summed usage U gives
`totalAmount = U * pricePerGb`, `discountAmount = totalAmount * (d / 100)`
and `finalAmount = totalAmount - discountAmount`; and the end-to-end `u2`
scenario (pricePerGb 1000, discount 10, usage 100 GB) yields 100000 / 10000 /
90000. -/
theorem C1_invoice_formulas (rep : Representative) (U : ℚ) (m : String)
    (d : ℚ) (nowMs : ℕ) (hd : rep.discountPercent = some d)
    (h0 : 0 ≤ d) (h100 : d ≤ 100) :
    (mkDraft rep U m).totalAmount = U * rep.pricePerGb ∧
    (toGeneratedInvoice (mkDraft rep U m) nowMs).discountAmount =
      (mkDraft rep U m).totalAmount * (d / 100) ∧
    (toGeneratedInvoice (mkDraft rep U m) nowMs).finalAmount =
      (mkDraft rep U m).totalAmount -
        (toGeneratedInvoice (mkDraft rep U m) nowMs).discountAmount ∧
    ((processInvoiceData
        [⟨2, "u2", "u2", 1000, some 10, none, none, none, none, none, none,
          none, none, none⟩]
        [⟨"u2", 100, "2025-03"⟩] "2025-03").1.map
      (fun dr => (dr.totalAmount, (toGeneratedInvoice dr nowMs).discountAmount,
        dr.finalAmount))) = [(100000, 10000, 90000)] := by
  refine ⟨rfl, ?_, ?_, ?_⟩
  · simp [toGeneratedInvoice, mkDraft, hd]
    ring
  · simp [toGeneratedInvoice, mkDraft, hd]
  · rw [show (processInvoiceData
        [⟨2, "u2", "u2", 1000, some 10, none, none, none, none, none, none,
          none, none, none⟩]
        [⟨"u2", 100, "2025-03"⟩] "2025-03").1 =
      [mkDraft
        ⟨2, "u2", "u2", 1000, some 10, none, none, none, none, none, none,
          none, none, none⟩ (0 + 100) "2025-03"] from rfl]
    simp [mkDraft, toGeneratedInvoice]
    norm_num

/-- C1 witness: the formulas at a concrete representative (price 1000,
discount 10) and usage 100. -/
theorem C1_invoice_formulas_witness :
    (mkDraft
      ⟨2, "u2", "u2", 1000, some 10, none, none, none, none, none, none,
        none, none, none⟩ 100 "2025-03").totalAmount =
      100 * (1000 : ℚ) ∧
    (toGeneratedInvoice
      (mkDraft
        ⟨2, "u2", "u2", 1000, some 10, none, none, none, none, none, none,
          none, none, none⟩ 100 "2025-03") 0).discountAmount =
      (mkDraft
        ⟨2, "u2", "u2", 1000, some 10, none, none, none, none, none, none,
          none, none, none⟩ 100 "2025-03").totalAmount * ((10 : ℚ) / 100) ∧
    (toGeneratedInvoice
      (mkDraft
        ⟨2, "u2", "u2", 1000, some 10, none, none, none, none, none, none,
          none, none, none⟩ 100 "2025-03") 0).finalAmount =
      (mkDraft
        ⟨2, "u2", "u2", 1000, some 10, none, none, none, none, none, none,
          none, none, none⟩ 100 "2025-03").totalAmount -
        (toGeneratedInvoice
          (mkDraft
            ⟨2, "u2", "u2", 1000, some 10, none, none, none, none, none,
              none, none, none, none⟩ 100 "2025-03") 0).discountAmount := by
  have h := C1_invoice_formulas
    ⟨2, "u2", "u2", 1000, some 10, none, none, none, none, none, none,
      none, none, none⟩ 100 "2025-03" 10 0 rfl (by norm_num) (by norm_num)
  exact ⟨h.1, h.2.1, h.2.2.1⟩

section GeneratorLemmas

/-- The generator's fold splits into a draft `filterMap` and a warning
`filterMap` over the grouped usernames. -/
theorem processInvoiceData_eq (representatives : List Representative)
    (billingData : List BillingData) (m : String) :
    processInvoiceData representatives billingData m =
      ((groupKeys billingData).filterMap (fun u =>
          (representativesMapGet representatives u).map
            (fun rep => mkDraft rep (groupTotal billingData u) m)),
       (groupKeys billingData).filterMap (fun u =>
          if representativesMapGet representatives u = none then
            some (unmatchedWarning u)
          else none)) := by
  have aux : ∀ (keys : List String)
      (acc : List InvoiceGenerationData × List String),
      keys.foldl (fun acc u =>
        match representativesMapGet representatives u with
        | none => (acc.1, acc.2 ++ [unmatchedWarning u])
        | some rep =>
          (acc.1 ++ [mkDraft rep (groupTotal billingData u) m], acc.2)) acc =
      (acc.1 ++ keys.filterMap (fun u =>
          (representativesMapGet representatives u).map
            (fun rep => mkDraft rep (groupTotal billingData u) m)),
       acc.2 ++ keys.filterMap (fun u =>
          if representativesMapGet representatives u = none then
            some (unmatchedWarning u)
          else none)) := by
    intro keys
    induction keys with
    | nil => intro acc; simp
    | cons k ks ih =>
      intro acc
      simp only [List.foldl_cons, List.filterMap_cons]
      cases h : representativesMapGet representatives k with
      | none => simp [h, ih]
      | some rep => simp [h, ih]
  show (groupKeys billingData).foldl _ ([], []) = _
  rw [aux]
  simp

/-- A successful lookup in the representative map returns a representative
carrying the looked-up username. -/
theorem representativesMapGet_username (reps : List Representative)
    (u : String) (r : Representative)
    (h : representativesMapGet reps u = some r) : r.username = u := by
  have aux : ∀ (l : List Representative) (acc : Option Representative),
      (∀ x, acc = some x → x.username = u) →
      ∀ x, l.foldl (fun acc y => if y.username = u then some y else acc) acc =
        some x → x.username = u := by
    intro l
    induction l with
    | nil => intro acc h0 x hx; exact h0 x hx
    | cons a l ih =>
      intro acc h0 x
      simp only [List.foldl_cons]
      apply ih
      intro y hy
      by_cases ha : a.username = u
      · rw [if_pos ha] at hy
        injection hy with h2
        rw [← h2]
        exact ha
      · rw [if_neg ha] at hy
        exact h0 y hy
  exact aux reps none (fun x hx => by cases hx) r h

/-- Every grouped username comes from some billing row. -/
theorem mem_groupKeys (billing : List BillingData) (u : String)
    (hu : u ∈ groupKeys billing) : ∃ row ∈ billing, row.adminUsername = u := by
  have aux : ∀ (L : List BillingData) (acc : List String) (x : String),
      x ∈ L.foldl (fun ks item =>
        if item.adminUsername ∈ ks then ks else ks ++ [item.adminUsername])
        acc →
      x ∈ acc ∨ ∃ row ∈ L, row.adminUsername = x := by
    intro L
    induction L with
    | nil => intro acc x h; exact Or.inl h
    | cons a L ih =>
      intro acc x h
      simp only [List.foldl_cons] at h
      rcases ih _ x h with h1 | ⟨row, hrow, he⟩
      · by_cases ha : a.adminUsername ∈ acc
        · rw [if_pos ha] at h1
          exact Or.inl h1
        · rw [if_neg ha] at h1
          rcases List.mem_append.mp h1 with h2 | h2
          · exact Or.inl h2
          · exact Or.inr ⟨a, List.mem_cons_self a L,
              (List.mem_singleton.mp h2).symm⟩
      · exact Or.inr ⟨row, List.mem_cons_of_mem a hrow, he⟩
  rcases aux billing [] u hu with h | h
  · cases h
  · exact h

/-- Characterisation of draft membership in the generator's output. -/
theorem mem_processInvoiceData_drafts (reps : List Representative)
    (billing : List BillingData) (m : String) (d : InvoiceGenerationData) :
    d ∈ (processInvoiceData reps billing m).1 ↔
      ∃ u ∈ groupKeys billing, ∃ rep, representativesMapGet reps u = some rep ∧
        d = mkDraft rep (groupTotal billing u) m := by
  rw [processInvoiceData_eq]
  simp only [List.mem_filterMap, Option.map_eq_some']
  constructor
  · rintro ⟨u, hu, rep, hrep, rfl⟩
    exact ⟨u, hu, rep, hrep, rfl⟩
  · rintro ⟨u, hu, rep, hrep, rfl⟩
    exact ⟨u, hu, rep, hrep, rfl⟩

end GeneratorLemmas

/-- C5 counterexample: a representative with a duration-tiered price set
(price1Month = 50000) and legacy pricePerGb 1000, at 5 GB of usage, is
billed 5 × 1000 = 5000 by the code, not 5 × 50000 = 250000 as the tiered
precedence in the claim would require. -/
theorem C5_counterexample :
    ((processInvoiceData
        [⟨5, "r5", "u5", 1000, none, some 50000, none, none, none, none, none,
          none, none, none⟩]
        [⟨"u5", 5, "2025-03"⟩] "2025-03").1.map (fun d => d.totalAmount)) =
      [5000] ∧ (5000 : ℚ) ≠ 5 * 50000 := by
  constructor
  · rw [show (processInvoiceData
        [⟨5, "r5", "u5", 1000, none, some 50000, none, none, none, none, none,
          none, none, none⟩]
        [⟨"u5", 5, "2025-03"⟩] "2025-03").1 =
      [mkDraft
        ⟨5, "r5", "u5", 1000, none, some 50000, none, none, none, none, none,
          none, none, none⟩ (0 + 5) "2025-03"] from rfl]
    simp [mkDraft]
    norm_num
  · norm_num

/-- C5 amended: invoice pricing never consults the duration-tiered prices;
the draft is unchanged under any values of `price1Month`..`price6Month` and
`unlimitedMonthlyPrice`, and the total is always `usage * pricePerGb` (the
legacy field). -/
theorem C5_legacy_pricing_only (rep : Representative) (U : ℚ) (m : String)
    (p1 p2 p3 p4 p5 p6 up : Option ℚ) :
    mkDraft
      { rep with
        price1Month := p1
        price2Month := p2
        price3Month := p3
        price4Month := p4
        price5Month := p5
        price6Month := p6
        unlimitedMonthlyPrice := up } U m =
      mkDraft rep U m ∧
    (mkDraft rep U m).totalAmount = U * rep.pricePerGb :=
  ⟨rfl, rfl⟩

/-- C6 counterexample: one billing row with zero usage still produces a
draft (with zero total), so a draft is not emitted only for representatives
with nonzero aggregated usage. -/
theorem C6_counterexample :
    ((processInvoiceData
        [⟨6, "r6", "u6", 1000, none, none, none, none, none, none, none,
          none, none, none⟩]
        [⟨"u6", 0, "2025-03"⟩] "2025-03").1.map
      (fun d => (d.username, d.dataUsageGb, d.totalAmount))) =
      [("u6", 0, 0)] := by
  rw [show (processInvoiceData
      [⟨6, "r6", "u6", 1000, none, none, none, none, none, none, none,
        none, none, none⟩]
      [⟨"u6", 0, "2025-03"⟩] "2025-03").1 =
    [mkDraft
      ⟨6, "r6", "u6", 1000, none, none, none, none, none, none, none,
        none, none, none⟩ (0 + 0) "2025-03"] from rfl]
  simp [mkDraft, round3, jsRound]
  norm_num

/-- C6 amended: with zero matching usage rows for a username no draft with
that username is produced; and a draft is emitted for every grouped username
with a matching representative, including groups whose aggregated usage is
zero. -/
theorem C6_drafts_follow_groups (reps : List Representative)
    (billing : List BillingData) (m u : String) :
    ((∀ row ∈ billing, row.adminUsername ≠ u) →
      ∀ d ∈ (processInvoiceData reps billing m).1, d.username ≠ u) ∧
    (∀ rep, u ∈ groupKeys billing → representativesMapGet reps u = some rep →
      mkDraft rep (groupTotal billing u) m ∈
        (processInvoiceData reps billing m).1) := by
  constructor
  · intro hnone d hd
    rcases (mem_processInvoiceData_drafts reps billing m d).mp hd with
      ⟨u2, hu2, rep, hrep, rfl⟩
    have h1 : rep.username = u2 := representativesMapGet_username reps u2 rep hrep
    show rep.username ≠ u
    rw [h1]
    intro h2
    rcases mem_groupKeys billing u2 hu2 with ⟨row, hrow, he⟩
    exact hnone row hrow (by rw [he, h2])
  · intro rep hu hrep
    exact (mem_processInvoiceData_drafts reps billing m _).mpr
      ⟨u, hu, rep, hrep, rfl⟩

/-- C6 witness: with a single zero-usage row for `u6` and a matching
representative, the corresponding draft is in the output. -/
theorem C6_drafts_follow_groups_witness :
    mkDraft
      ⟨6, "r6", "u6", 1000, none, none, none, none, none, none, none,
        none, none, none⟩
      (groupTotal [⟨"u6", 0, "2025-03"⟩] "u6") "2025-03" ∈
      (processInvoiceData
        [⟨6, "r6", "u6", 1000, none, none, none, none, none, none, none,
          none, none, none⟩]
        [⟨"u6", 0, "2025-03"⟩] "2025-03").1 :=
  (C6_drafts_follow_groups
    [⟨6, "r6", "u6", 1000, none, none, none, none, none, none, none,
      none, none, none⟩]
    [⟨"u6", 0, "2025-03"⟩] "2025-03" "u6").2
    ⟨6, "r6", "u6", 1000, none, none, none, none, none, none, none,
      none, none, none⟩ (by decide) (by decide)

/-- C7: an unmatched grouped username produces no draft, lands in the
warning log verbatim, and the remaining matched groups are still all
emitted. -/
theorem C7_unmatched_nonfatal (reps : List Representative)
    (billing : List BillingData) (m u : String)
    (hu : u ∈ groupKeys billing)
    (hnone : representativesMapGet reps u = none) :
    (∀ d ∈ (processInvoiceData reps billing m).1, d.username ≠ u) ∧
    unmatchedWarning u ∈ (processInvoiceData reps billing m).2 ∧
    (∀ u2 ∈ groupKeys billing, ∀ rep,
      representativesMapGet reps u2 = some rep →
      mkDraft rep (groupTotal billing u2) m ∈
        (processInvoiceData reps billing m).1) := by
  refine ⟨?_, ?_, ?_⟩
  · intro d hd
    rcases (mem_processInvoiceData_drafts reps billing m d).mp hd with
      ⟨u2, hu2, rep, hrep, rfl⟩
    have h1 : rep.username = u2 := representativesMapGet_username reps u2 rep hrep
    show rep.username ≠ u
    rw [h1]
    intro h2
    rw [h2] at hrep
    rw [hnone] at hrep
    cases hrep
  · rw [processInvoiceData_eq]
    simp only [List.mem_filterMap]
    exact ⟨u, hu, by simp [hnone]⟩
  · intro u2 hu2 rep hrep
    exact (mem_processInvoiceData_drafts reps billing m _).mpr
      ⟨u2, hu2, rep, hrep, rfl⟩

/-- C7 witness: with representative `ua` present and a billing row for the
unknown username `ghost`, the verbatim warning for `ghost` is in the warning
log. -/
theorem C7_unmatched_nonfatal_witness :
    unmatchedWarning "ghost" ∈
      (processInvoiceData
        [⟨1, "ra", "ua", 1000, none, none, none, none, none, none, none,
          none, none, none⟩]
        [⟨"ghost", 5, "2025-03"⟩, ⟨"ua", 3, "2025-03"⟩] "2025-03").2 :=
  (C7_unmatched_nonfatal
    [⟨1, "ra", "ua", 1000, none, none, none, none, none, none, none,
      none, none, none⟩]
    [⟨"ghost", 5, "2025-03"⟩, ⟨"ua", 3, "2025-03"⟩] "2025-03" "ghost"
    (by decide) (by decide)).2.1

section ImporterLemmas

/-- A one-row batch whose row is accepted becomes one record (rounded) and no
errors. -/
theorem processRawData_singleton_ok (m : String) (row : Row) (u : String)
    (g : ℚ) (h : processRow row = .ok (u, g)) :
    processRawData m [row] = ⟨1, 1, 0, 1, round3 (0 + g), [⟨u, round3 g, m⟩], []⟩ := by
  simp [processRawData, h, List.dedup]

/-- A one-row batch whose row is rejected becomes one indexed error and no
records. -/
theorem processRawData_singleton_error (m : String) (row : Row) (e : String)
    (h : processRow row = .error e) :
    processRawData m [row] = ⟨1, 0, 1, 0, round3 0, [], [rowError 0 e]⟩ := by
  simp [processRawData, h, List.dedup]

end ImporterLemmas

/-- C3: a row whose quantity cell is present (truthy) and parses to a
non-negative number q is accepted with the unit heuristic applied — divide
by 2^30 above 1,000,000, by 1,024 above 1,000, identity otherwise — and the
stored GB value is rounded to 3 decimals; in particular 5368709120, 5120 and
5 all normalize to 5.0 GB. -/
theorem C3_unit_heuristic (row : Row) (m : String) (u v : JSVal) (q : ℚ)
    (hid : findFieldValue row identityFields = some u) (hidt : u.truthy = true)
    (hv : findFieldValue row usageFields = some v) (hvt : v.truthy = true)
    (hq : v.parseFloat = some q) (h0 : 0 ≤ q) :
    processRow row = .ok (jsTrim u.jsString, convertToGb q) ∧
    (processRawData m [row]).records =
      [⟨jsTrim u.jsString, round3 (convertToGb q), m⟩] ∧
    (1000000 < q → convertToGb q = q / 2 ^ 30) ∧
    (q ≤ 1000000 → 1000 < q → convertToGb q = q / 1024) ∧
    (q ≤ 1000 → convertToGb q = q) ∧
    round3 (convertToGb 5368709120) = 5 ∧
    round3 (convertToGb 5120) = 5 ∧
    round3 (convertToGb 5) = 5 := by
  have hpr : processRow row = .ok (jsTrim u.jsString, convertToGb q) := by
    simp only [processRow, hid, hidt, hv, hvt, hq, Bool.not_true,
      Bool.false_eq_true, if_false]
    rw [if_neg (not_lt.mpr h0)]
    simp
  refine ⟨hpr, ?_, ?_, ?_, ?_, ?_, ?_, ?_⟩
  · rw [processRawData_singleton_ok m row _ _ hpr]
  · intro h
    rw [convertToGb, if_pos h]
    norm_num
  · intro h1 h2
    rw [convertToGb, if_neg (not_lt.mpr h1), if_pos h2]
  · intro h1
    rw [convertToGb, if_neg (not_lt.mpr (le_trans h1 (by norm_num))),
      if_neg (not_lt.mpr h1)]
  · norm_num [round3, convertToGb, jsRound]
  · norm_num [round3, convertToGb, jsRound]
  · norm_num [round3, convertToGb, jsRound]

/-- C3 witness: the heuristic at a concrete byte-valued row. -/
theorem C3_unit_heuristic_witness :
    (processRawData "2025-03"
      [[("admin_username", JSVal.str "u1"),
        ("data_usage", JSVal.num 5368709120)]]).records =
      [⟨jsTrim (JSVal.str "u1").jsString,
        round3 (convertToGb 5368709120), "2025-03"⟩] ∧
    round3 (convertToGb 5368709120) = 5 := by
  have h := C3_unit_heuristic
    [("admin_username", JSVal.str "u1"), ("data_usage", JSVal.num 5368709120)]
    "2025-03" (JSVal.str "u1") (JSVal.num 5368709120) 5368709120
    (by decide) (by decide) (by decide) (by decide) rfl (by decide)
  exact ⟨h.2.1, h.2.2.2.2.2.1⟩

/-- C10: a present quantity cell holding the number 0 or the empty string is
falsy, so the row is rejected with the "usage value not found" diagnostic
and never becomes a zero-usage record. -/
theorem C10_zero_usage_rejected (row : Row) (m : String) (u v : JSVal)
    (hid : findFieldValue row identityFields = some u) (hidt : u.truthy = true)
    (hv : findFieldValue row usageFields = some v)
    (hzero : v = JSVal.num 0 ∨ v = JSVal.str "") :
    processRow row = .error errUsageNotFound ∧
    (processRawData m [row]).records = [] ∧
    (processRawData m [row]).errors = [rowError 0 errUsageNotFound] := by
  have hvt : v.truthy = false := by
    rcases hzero with h | h <;> rw [h] <;> rfl
  have hpr : processRow row = .error errUsageNotFound := by
    simp only [processRow, hid, hidt, hv, hvt, Bool.not_true,
      Bool.false_eq_true, if_false, Bool.not_false, if_true]
    simp
  refine ⟨hpr, ?_, ?_⟩
  · rw [processRawData_singleton_error m row _ hpr]
  · rw [processRawData_singleton_error m row _ hpr]

/-- C10 witness: a concrete row with a numeric-zero usage cell lands in the
error log with the usage-not-found diagnostic. -/
theorem C10_zero_usage_rejected_witness :
    (processRawData "2025-03"
      [[("admin_username", JSVal.str "u1"),
        ("data_usage", JSVal.num 0)]]).errors =
      [rowError 0 errUsageNotFound] :=
  (C10_zero_usage_rejected
    [("admin_username", JSVal.str "u1"), ("data_usage", JSVal.num 0)]
    "2025-03" (JSVal.str "u1") (JSVal.num 0)
    (by decide) (by decide) (by decide) (Or.inl rfl)).2.2

/-- C4 (divergence witness): a row whose matched fields hold the literal
string "null" is pushed to the error log with the "invalid usage value"
diagnostic — `parseFloat("null")` is NaN — instead of being retained in the
accepted/skipped log as a zero-impact entry. -/
theorem C4_null_row_goes_to_error_log :
    processRow [("admin_username", JSVal.str "null"),
      ("data_usage", JSVal.str "null")] = .error errUsageInvalid ∧
    (processRawData "2025-03"
      [[("admin_username", JSVal.str "null"),
        ("data_usage", JSVal.str "null")]]).records = [] ∧
    (processRawData "2025-03"
      [[("admin_username", JSVal.str "null"),
        ("data_usage", JSVal.str "null")]]).errors =
      [rowError 0 errUsageInvalid] := by
  refine ⟨rfl, ?_, ?_⟩ <;> decide

/-- C9 counterexample: a representative whose telegram username is a single
space has no channel after trimming per the claim, yet the code marks it
reachable (JS truthiness, no trim). -/
theorem C9_counterexample :
    (telegramContactFor []
      ⟨9, "n", "u9", 0, none, none, none, none, none, none, none, none,
        none, some " "⟩).hasTelegram = true ∧
    specHasChannel
      ⟨9, "n", "u9", 0, none, none, none, none, none, none, none, none,
        none, some " "⟩ = false := by
  constructor
  · rfl
  · decide

/-- C9 amended: a representative is marked reachable iff the telegram id or
username is a non-empty string (JS truthiness, no trimming); for a non-empty
username the link is `https://t.me/` plus the username with its first `@`
removed (the id is used only when the username is absent/empty); unreachable
representatives get no link and form exactly the `no_telegram` missing
list. -/
theorem C9_contact_routing (reps : List Representative)
    (invoices : List Invoice) (rep : Representative) (c : TelegramContact) :
    ((telegramContactFor invoices rep).hasTelegram =
      (optTruthy rep.telegramId || optTruthy rep.telegramUsername)) ∧
    (∀ uname : String, rep.telegramUsername = some uname → uname ≠ "" →
      (telegramContactFor invoices rep).telegramLink =
        some ("https://t.me/" ++ String.mk (removeFirst '@' uname.data))) ∧
    ((telegramContactFor invoices rep).hasTelegram = false →
      (telegramContactFor invoices rep).telegramLink = none) ∧
    (c ∈ missingContacts reps invoices ↔
      c ∈ telegramContacts reps invoices ∧ c.hasTelegram = false) := by
  refine ⟨rfl, ?_, ?_, ?_⟩
  · intro uname h hne
    simp [telegramContactFor, jsOrString, optTruthy, h, hne, createTelegramLink]
  · intro h
    have h1 : optTruthy rep.telegramId = false := by
      simp only [telegramContactFor] at h
      rcases Bool.or_eq_false_iff.mp h with ⟨h1, _⟩
      exact h1
    have h2 : optTruthy rep.telegramUsername = false := by
      simp only [telegramContactFor] at h
      rcases Bool.or_eq_false_iff.mp h with ⟨_, h2⟩
      exact h2
    simp [telegramContactFor, jsOrString, h1, h2]
  · simp [missingContacts, List.mem_filter]

/-- C9 witness: a concrete representative with username `@user` gets the
canonical link with the leading `@` stripped. -/
theorem C9_contact_routing_witness :
    (telegramContactFor []
      ⟨9, "n", "u9", 0, none, none, none, none, none, none, none, none,
        none, some "@user"⟩).telegramLink =
      some ("https://t.me/" ++ String.mk (removeFirst '@' "@user".data)) :=
  (C9_contact_routing []
    []
    ⟨9, "n", "u9", 0, none, none, none, none, none, none, none, none,
      none, some "@user"⟩
    (telegramContactFor []
      ⟨9, "n", "u9", 0, none, none, none, none, none, none, none, none,
        none, some "@user"⟩)).2.1 "@user" rfl (by decide)

section InvoiceNumberLemmas

/-- Reading a digit character back gives the digit. -/
theorem digitVal_digitChar (d : ℕ) (hd : d < 10) :
    digitVal (Nat.digitChar d) = d := by
  interval_cases d <;> decide

/-- The first k little-endian digits of n encode n mod b^k. -/
theorem ofDigits_digits_take (b n k : ℕ) (hb : 1 < b) :
    Nat.ofDigits b ((Nat.digits b n).take k) = n % b ^ k := by
  by_cases hk : k ≤ (Nat.digits b n).length
  · have hsplit :
        Nat.ofDigits b ((Nat.digits b n).take k ++ (Nat.digits b n).drop k) = n := by
      rw [List.take_append_drop, Nat.ofDigits_digits]
    rw [Nat.ofDigits_append] at hsplit
    have hlen : ((Nat.digits b n).take k).length = k := by
      rw [List.length_take]
      omega
    have hlt : Nat.ofDigits b ((Nat.digits b n).take k) < b ^ k := by
      have hbound := Nat.ofDigits_lt_base_pow_length hb
        (l := (Nat.digits b n).take k)
        (fun x hx => Nat.digits_lt_base hb (List.mem_of_mem_take hx))
      rwa [hlen] at hbound
    rw [hlen] at hsplit
    calc Nat.ofDigits b ((Nat.digits b n).take k)
        = Nat.ofDigits b ((Nat.digits b n).take k) % b ^ k :=
          (Nat.mod_eq_of_lt hlt).symm
      _ = (Nat.ofDigits b ((Nat.digits b n).take k)
            + b ^ k * Nat.ofDigits b ((Nat.digits b n).drop k)) % b ^ k :=
          (Nat.add_mul_mod_self_left _ _ _).symm
      _ = n % b ^ k := by rw [hsplit]
  · push_neg at hk
    rw [List.take_of_length_le (le_of_lt hk), Nat.ofDigits_digits]
    have hlt : n < b ^ k :=
      lt_of_lt_of_le (Nat.lt_base_pow_length_digits hb)
        (Nat.pow_le_pow_right (le_of_lt hb) (le_of_lt hk))
    exact (Nat.mod_eq_of_lt hlt).symm

/-- The last six characters of the decimal clock encode the clock mod 10^6. -/
theorem charsVal_sliceLast_natDecimal (t : ℕ) :
    charsVal (sliceLast 6 (natDecimal t)) = t % 1000000 := by
  by_cases ht : t = 0
  · subst ht
    decide
  · rw [natDecimal, if_neg ht]
    have hmaps : sliceLast 6 (((Nat.digits 10 t).reverse).map Nat.digitChar) =
        (((Nat.digits 10 t).take 6).reverse).map Nat.digitChar := by
      rw [sliceLast, List.length_map, List.length_reverse,
        ← List.map_drop, ← List.reverse_take]
    rw [hmaps, charsVal, List.map_map]
    have hid : ((Nat.digits 10 t).take 6).reverse.map (digitVal ∘ Nat.digitChar) =
        ((Nat.digits 10 t).take 6).reverse.map id := by
      apply List.map_eq_map_iff.mpr
      intro x hx
      have hx2 : x ∈ Nat.digits 10 t :=
        List.mem_of_mem_take (List.mem_reverse.mp hx)
      exact digitVal_digitChar x (Nat.digits_lt_base (by norm_num) hx2)
    rw [hid, List.map_id, List.reverse_reverse]
    have h6 : (1000000 : ℕ) = 10 ^ 6 := by norm_num
    rw [h6]
    exact ofDigits_digits_take 10 t 6 (by norm_num)

end InvoiceNumberLemmas

/-- C8: two invoice-number generations for the same representative and month
at different millisecond clocks within the same second give different
numbers: the id is `INV-` + repId + `-` + month (first slash removed) + a
suffix of the last six decimal digits of the clock, and within one second
those suffixes cannot coincide. -/
theorem C8_invoice_number_collision_free (repId : ℕ) (month : String)
    (t1 t2 : ℕ) (hne : t1 ≠ t2) (hsec : t1 / 1000 = t2 / 1000) :
    generateInvoiceNumber repId month t1 ≠ generateInvoiceNumber repId month t2 := by
  intro h
  have hdata : (("INV-".data ++ natDecimal repId)
        ++ ('-' :: removeFirst '/' month.data)
        ++ ('-' :: sliceLast 6 (natDecimal t1))) =
      (("INV-".data ++ natDecimal repId)
        ++ ('-' :: removeFirst '/' month.data)
        ++ ('-' :: sliceLast 6 (natDecimal t2))) := congrArg String.data h
  have htail := List.append_cancel_left hdata
  injection htail with _ hS
  have hmod : t1 % 1000000 = t2 % 1000000 := by
    rw [← charsVal_sliceLast_natDecimal t1, ← charsVal_sliceLast_natDecimal t2, hS]
  omega

/-- C8 witness: two clocks one millisecond apart inside the same second give
different invoice numbers for the same representative and month. -/
theorem C8_invoice_number_collision_free_witness :
    generateInvoiceNumber 7 "2025/03" 1000 ≠ generateInvoiceNumber 7 "2025/03" 1001 :=
  C8_invoice_number_collision_free 7 "2025/03" 1000 1001 (by decide) (by decide)

end VpnBilling
